import Mathlib

/-!
Verification of the sales-pipeline services of Praxis_CRM
(`apps/sales/services.py`) over a shallow embedding.

Persistence is modelled by explicit lists of records; `Decimal` currency
values are embedded as exact rationals (`ℚ`); timestamps are reduced to the
month/year pair that the queries inspect.  Django ORM calls (`filter`,
`exclude`, `aggregate(Sum)`, `objects.get`) become the corresponding list
operations, and `save(update_fields=[...])` becomes returning the record
with exactly those fields replaced.
-/

namespace Praxis

/-- Modelled from the spec: the stage enumeration `EtapaOportunidade`
(`apps/core/enums.py`, not part of the sources at hand); §3 fixes its six
values {PROSPECTING, QUALIFICATION, PROPOSAL, NEGOTIATION, CLOSED_WON, LOST}. -/
inductive Etapa where
  | prospeccao
  | qualificacao
  | proposta
  | negociacao
  | fechamento
  | perdida
deriving DecidableEq, Repr

/-- The month/year component of a timestamp: all queries in `services.py`
only ever inspect `__month` and `__year` of a timestamp. -/
structure Data where
  month : Nat
  year : Nat
deriving DecidableEq, Repr

/-- Modelled from the spec: the persisted `Oportunidade` record
(`apps/sales/models.py`, not part of the sources at hand); fields per §3.
Client and seller references are embedded as numeric identifiers. -/
structure Oportunidade where
  titulo : String
  cliente : Nat
  vendedor : Nat
  valor_estimado : ℚ
  descricao : String
  etapa : Etapa
  criado_em : Data
  atualizado_em : Data
deriving DecidableEq, Repr

/-- Modelled from the spec: the persisted `MetaComercial` record
(`apps/sales/models.py`, not part of the sources at hand); fields per §3. -/
structure MetaComercial where
  vendedor : Nat
  mes : Nat
  ano : Nat
  valor_meta : ℚ
deriving DecidableEq, Repr

/-- `ORDEM_ETAPAS` from `services.py`. -/
def ORDEM_ETAPAS : List Etapa :=
  [Etapa.prospeccao, Etapa.qualificacao, Etapa.proposta, Etapa.negociacao,
   Etapa.fechamento]

/-- Python's `list.index`: position of the first occurrence, `none` standing
for the `ValueError` raised when the element is absent. -/
def listIndex : List Etapa → Etapa → Option Nat
  | [], _ => none
  | x :: xs, e => if x = e then some 0 else (listIndex xs e).map (· + 1)

/-- `avancar_etapa` from `services.py`.  `Except.error` models a raised
exception (`ValidationError`, or the `ValueError`/`IndexError` of the
unreachable lookup failures).  `agora` is the clock value the save stamps
into the auto-updated `atualizado_em` field; a successful save persists
exactly the `etapa` and `atualizado_em` fields of the record. -/
def avancar_etapa (o : Oportunidade) (agora : Data) : Except String Oportunidade :=
  if o.etapa = Etapa.perdida then
    Except.error "Oportunidade perdida não pode avançar."
  else if o.etapa = Etapa.fechamento then
    Except.error "Oportunidade já está na etapa final."
  else
    match listIndex ORDEM_ETAPAS o.etapa with
    | none => Except.error "ValueError: etapa is not in list"
    | some idx_atual =>
      match ORDEM_ETAPAS.get? (idx_atual + 1) with
      | none => Except.error "IndexError: list index out of range"
      | some prox => Except.ok { o with etapa := prox, atualizado_em := agora }

/-- `marcar_perdida` from `services.py`. -/
def marcar_perdida (o : Oportunidade) (agora : Data) : Except String Oportunidade :=
  if o.etapa = Etapa.fechamento then
    Except.error "Oportunidade fechada não pode ser marcada como perdida."
  else
    Except.ok { o with etapa := Etapa.perdida, atualizado_em := agora }

/-- Whether the call raised (white-box view of an `Except`). -/
def isError {α : Type} : Except String α → Bool
  | Except.error _ => true
  | Except.ok _ => false

/-- The persisted state of the opportunity after calling `avancar_etapa`:
the saved record on success; on an exception the record is untouched, since
both `raise` statements precede any field assignment. -/
def estadoAposAvancar (o : Oportunidade) (agora : Data) : Oportunidade :=
  match avancar_etapa o agora with
  | Except.ok o2 => o2
  | Except.error _ => o

/-- Likewise for `marcar_perdida`. -/
def estadoAposMarcarPerdida (o : Oportunidade) (agora : Data) : Oportunidade :=
  match marcar_perdida o agora with
  | Except.ok o2 => o2
  | Except.error _ => o

/-- Django's `aggregate(total=Sum("valor_estimado"))["total"]`: `none` when
the queryset has no rows, otherwise the sum of the column. -/
def aggregateSum (rows : List ℚ) : Option ℚ :=
  match rows with
  | [] => none
  | _ => some rows.sum

/-- Python's `total or Decimal("0.00")`: `None` is falsy, and so is a zero
`Decimal`, so both fall back to the (equal) default `0.00`. -/
def pyOrZero (total : Option ℚ) : ℚ :=
  match total with
  | none => 0
  | some v => if v = 0 then 0 else v

/-- `calcular_realizado` from `services.py`: the opportunity table is passed
explicitly as the list `db`. -/
def calcular_realizado (db : List Oportunidade) (vendedor mes ano : Nat) : ℚ :=
  let total := aggregateSum
    ((db.filter fun o =>
        o.vendedor == vendedor && o.etapa == Etapa.fechamento &&
        o.atualizado_em.month == mes && o.atualizado_em.year == ano).map
      (fun o => o.valor_estimado))
  pyOrZero total

/-- `calcular_pipeline` from `services.py`: a `filter` on seller and creation
month/year followed by an `exclude` on the two closed stages. -/
def calcular_pipeline (db : List Oportunidade) (vendedor mes ano : Nat) : ℚ :=
  let total := aggregateSum
    (((db.filter fun o =>
          o.vendedor == vendedor &&
          o.criado_em.month == mes && o.criado_em.year == ano).filter
        (fun o => !(o.etapa == Etapa.fechamento || o.etapa == Etapa.perdida))).map
      (fun o => o.valor_estimado))
  pyOrZero total

/-- The three status bands returned by `calcular_status_meta`. -/
inductive StatusMeta where
  | OK
  | ATENCAO
  | RISCO
deriving DecidableEq, Repr

/-- `calcular_status_meta` from `services.py`; `Decimal("1.5")` is exactly
`3/2`. -/
def calcular_status_meta (valor_meta pipeline : ℚ) : StatusMeta :=
  if valor_meta ≤ 0 then StatusMeta.OK
  else if pipeline ≥ valor_meta * (3 / 2) then StatusMeta.OK
  else if pipeline ≥ valor_meta then StatusMeta.ATENCAO
  else StatusMeta.RISCO

/-- Round to the nearest integer, ties to the even integer: the
`ROUND_HALF_EVEN` default of Python's `Decimal`. -/
def roundHalfEven (q : ℚ) : ℤ :=
  let f := ⌊q⌋
  let r := q - f
  if r < 1 / 2 then f
  else if r > 1 / 2 then f + 1
  else if f % 2 = 0 then f else f + 1

/-- Python's `round(x, 1)` on a `Decimal`: half-even rounding to one decimal
place. -/
def round1 (q : ℚ) : ℚ :=
  (roundHalfEven (q * 10) : ℚ) / 10

/-- Python's `mes or hoje.month` on an optional month: `None` and `0` are
both falsy and fall back to the default. -/
def pyOrNat (v : Option Nat) (default : Nat) : Nat :=
  match v with
  | none => default
  | some n => if n = 0 then default else n

/-- The `if mes is None or ano is None: mes = mes or hoje.month; ano = ano or
hoje.ano` prologue shared by `obter_meta_vendedor` and
`listar_metas_vendedores`. -/
def resolveMesAno (mes ano : Option Nat) (hoje : Data) : Nat × Nat :=
  match mes, ano with
  | some m, some a => (m, a)
  | m, a => (pyOrNat m hoje.month, pyOrNat a hoje.year)

/-- `MetaComercial.objects.get(vendedor=..., mes=..., ano=...)` under the §3
invariant of at most one target per (seller, month, year): `none` models the
`DoesNotExist` exception that the caller catches. -/
def metaGet (metas : List MetaComercial) (vendedor mes ano : Nat) :
    Option MetaComercial :=
  metas.find? fun t => t.vendedor == vendedor && t.mes == mes && t.ano == ano

/-- The dict returned by `obter_meta_vendedor`. -/
structure MetaInfo where
  meta : Option MetaComercial
  valor_meta : ℚ
  realizado : ℚ
  pipeline : ℚ
  percentual : ℚ
  status : StatusMeta
  mes : Nat
  ano : Nat
deriving DecidableEq, Repr

/-- `obter_meta_vendedor` from `services.py`: `db` and `metas` are the
persisted tables, `hoje` the value of `timezone.now()`. -/
def obter_meta_vendedor (db : List Oportunidade) (metas : List MetaComercial)
    (hoje : Data) (vendedor : Nat) (mes ano : Option Nat) : MetaInfo :=
  let ma := resolveMesAno mes ano hoje
  let meta := metaGet metas vendedor ma.1 ma.2
  let valor_meta : ℚ :=
    match meta with
    | some t => t.valor_meta
    | none => 0
  let realizado := calcular_realizado db vendedor ma.1 ma.2
  let pipeline := calcular_pipeline db vendedor ma.1 ma.2
  let percentual : ℚ :=
    if valor_meta > 0 then round1 (realizado / valor_meta * 100) else 0
  let status := calcular_status_meta valor_meta pipeline
  { meta := meta, valor_meta := valor_meta, realizado := realizado,
    pipeline := pipeline, percentual := percentual, status := status,
    mes := ma.1, ano := ma.2 }

/-- `listar_metas_vendedores` from `services.py`: filters the target table by
period and builds one `obter_meta_vendedor` result per row, returning the
list together with the resolved month and year. -/
def listar_metas_vendedores (db : List Oportunidade)
    (metas : List MetaComercial) (hoje : Data) (mes ano : Option Nat) :
    List MetaInfo × Nat × Nat :=
  let ma := resolveMesAno mes ano hoje
  let rows := metas.filter fun t => t.mes == ma.1 && t.ano == ma.2
  (rows.map fun t =>
      obter_meta_vendedor db metas hoje t.vendedor (some ma.1) (some ma.2),
    ma.1, ma.2)

/-! ### Concrete records used by the witness theorems -/

/-- A sample open opportunity (stage PROPOSAL) of seller 7. -/
def opExemplo : Oportunidade :=
  { titulo := "Contrato", cliente := 3, vendedor := 7, valor_estimado := 1200,
    descricao := "", etapa := Etapa.proposta, criado_em := ⟨6, 2024⟩,
    atualizado_em := ⟨6, 2024⟩ }

/-- A sample lost opportunity. -/
def opPerdida : Oportunidade :=
  { opExemplo with etapa := Etapa.perdida }

/-- A sample closed-won opportunity of seller 1, updated in June 2024. -/
def opFechada : Oportunidade :=
  { titulo := "Venda", cliente := 2, vendedor := 1, valor_estimado := 600,
    descricao := "", etapa := Etapa.fechamento, criado_em := ⟨6, 2024⟩,
    atualizado_em := ⟨6, 2024⟩ }

/-- A sample target row: seller 1, June 2024, target 1000. -/
def metaExemplo : MetaComercial := ⟨1, 6, 2024, 1000⟩

/-! ### Claims -/

/-- C1: `calcular_status_meta` classifies every (valor_meta, pipeline) pair
into exactly one of the three bands: OK exactly when valor_meta ≤ 0 or
pipeline ≥ 1.5·valor_meta; ATENCAO exactly when valor_meta > 0 and
valor_meta ≤ pipeline < 1.5·valor_meta; RISCO exactly when valor_meta > 0
and pipeline < valor_meta.  The three characterizations are mutually
exclusive and exhaustive, and the iffs force the upward tie-breaks:
pipeline = valor_meta lands in ATENCAO and pipeline = 1.5·valor_meta in
OK. -/
theorem calcular_status_meta_bands (valor_meta pipeline : ℚ) :
    (calcular_status_meta valor_meta pipeline = StatusMeta.OK ↔
      valor_meta ≤ 0 ∨ pipeline ≥ valor_meta * (3 / 2)) ∧
    (calcular_status_meta valor_meta pipeline = StatusMeta.ATENCAO ↔
      0 < valor_meta ∧ valor_meta ≤ pipeline ∧ pipeline < valor_meta * (3 / 2)) ∧
    (calcular_status_meta valor_meta pipeline = StatusMeta.RISCO ↔
      0 < valor_meta ∧ pipeline < valor_meta) := by
  unfold calcular_status_meta
  split_ifs with h1 h2 h3
  · refine ⟨iff_of_true rfl (Or.inl h1), ?_, ?_⟩
    · exact iff_of_false (by decide) fun h => absurd h1 (not_le.mpr h.1)
    · exact iff_of_false (by decide) fun h => absurd h1 (not_le.mpr h.1)
  · have hvm : 0 < valor_meta := not_le.mp h1
    refine ⟨iff_of_true rfl (Or.inr h2), ?_, ?_⟩
    · exact iff_of_false (by decide) fun h => absurd h2 (not_le.mpr h.2.2)
    · exact iff_of_false (by decide) fun h => by
        have : valor_meta ≤ pipeline := by linarith
        exact absurd h.2 (not_lt.mpr this)
  · have hvm : 0 < valor_meta := not_le.mp h1
    have hlt : pipeline < valor_meta * (3 / 2) := not_le.mp h2
    refine ⟨?_, iff_of_true rfl ⟨hvm, h3, hlt⟩, ?_⟩
    · exact iff_of_false (by decide) fun h => h.elim (fun h => h1 h) (fun h => h2 h)
    · exact iff_of_false (by decide) fun h => absurd h3 (not_le.mpr h.2)
  · have hvm : 0 < valor_meta := not_le.mp h1
    refine ⟨?_, ?_, iff_of_true rfl ⟨hvm, not_le.mp h3⟩⟩
    · exact iff_of_false (by decide) fun h => h.elim (fun h => h1 h) (fun h => h2 h)
    · exact iff_of_false (by decide) fun h => absurd h.2.1 h3

/-- C2: for every opportunity whose stage sits at position `i` of
`ORDEM_ETAPAS` and is neither FECHAMENTO (closed-won) nor PERDIDA (lost),
`avancar_etapa` succeeds and returns the opportunity with its stage replaced
by the entry at position `i + 1` of the ordering (and the refreshed update
timestamp). -/
theorem avancar_etapa_next (o : Oportunidade) (agora : Data) (i : Nat)
    (hidx : ORDEM_ETAPAS.get? i = some o.etapa)
    (hwon : o.etapa ≠ Etapa.fechamento) (hlost : o.etapa ≠ Etapa.perdida) :
    ∃ prox, ORDEM_ETAPAS.get? (i + 1) = some prox ∧
      avancar_etapa o agora =
        Except.ok { o with etapa := prox, atualizado_em := agora } := by
  have hi : i < 5 := by
    by_contra hge
    rw [List.get?_eq_none.mpr (by simpa [ORDEM_ETAPAS] using not_lt.mp hge)] at hidx
    exact Option.noConfusion hidx
  interval_cases i <;>
    simp only [ORDEM_ETAPAS, List.get?] at hidx <;>
    rw [Option.some_inj] at hidx
  · exact ⟨Etapa.qualificacao, rfl, by
      simp [avancar_etapa, ← hidx, listIndex, ORDEM_ETAPAS]⟩
  · exact ⟨Etapa.proposta, rfl, by
      simp [avancar_etapa, ← hidx, listIndex, ORDEM_ETAPAS]⟩
  · exact ⟨Etapa.negociacao, rfl, by
      simp [avancar_etapa, ← hidx, listIndex, ORDEM_ETAPAS]⟩
  · exact ⟨Etapa.fechamento, rfl, by
      simp [avancar_etapa, ← hidx, listIndex, ORDEM_ETAPAS]⟩
  · exact absurd hidx.symm hwon

/-- Witness for C2 at a concrete opportunity in stage PROPOSAL (position 2):
it advances to position 3, NEGOCIACAO. -/
theorem avancar_etapa_next_witness :
    ∃ prox, ORDEM_ETAPAS.get? (2 + 1) = some prox ∧
      avancar_etapa opExemplo ⟨7, 2024⟩ =
        Except.ok { opExemplo with etapa := prox, atualizado_em := ⟨7, 2024⟩ } :=
  avancar_etapa_next opExemplo ⟨7, 2024⟩ 2 rfl (by decide) (by decide)

/-- C3: `avancar_etapa` raises exactly when the current stage is PERDIDA or
FECHAMENTO (for every other stage of the enumeration it succeeds), and on
such a failure the persisted record is unchanged. -/
theorem avancar_etapa_error_iff (o : Oportunidade) (agora : Data) :
    (isError (avancar_etapa o agora) = true ↔
      o.etapa = Etapa.perdida ∨ o.etapa = Etapa.fechamento) ∧
    (isError (avancar_etapa o agora) = true →
      estadoAposAvancar o agora = o) := by
  obtain ⟨t, c, v, val, d, et, cr, atu⟩ := o
  cases et <;>
    simp [avancar_etapa, isError, estadoAposAvancar, listIndex, ORDEM_ETAPAS]

/-- Witness for C3 at a concrete lost opportunity: the call fails and the
record is untouched. -/
theorem avancar_etapa_error_iff_witness :
    isError (avancar_etapa opPerdida ⟨7, 2024⟩) = true ∧
      estadoAposAvancar opPerdida ⟨7, 2024⟩ = opPerdida :=
  have h := avancar_etapa_error_iff opPerdida ⟨7, 2024⟩
  have he : isError (avancar_etapa opPerdida ⟨7, 2024⟩) = true :=
    h.1.mpr (Or.inl rfl)
  ⟨he, h.2 he⟩

/-- C4: `marcar_perdida` raises exactly when the current stage is FECHAMENTO;
for every other stage — including an already lost opportunity — it succeeds
and the saved record has stage PERDIDA (so LOST → LOST is a permitted
no-op on the stage). -/
theorem marcar_perdida_spec (o : Oportunidade) (agora : Data) :
    (isError (marcar_perdida o agora) = true ↔ o.etapa = Etapa.fechamento) ∧
    (o.etapa ≠ Etapa.fechamento →
      marcar_perdida o agora =
        Except.ok { o with etapa := Etapa.perdida, atualizado_em := agora }) := by
  unfold marcar_perdida
  split_ifs with h <;> simp [isError, h]

/-- Witness for C4 at a concrete opportunity already in stage PERDIDA: the
call succeeds and the stage stays PERDIDA. -/
theorem marcar_perdida_spec_witness :
    marcar_perdida opPerdida ⟨7, 2024⟩ =
      Except.ok
        { opPerdida with etapa := Etapa.perdida, atualizado_em := ⟨7, 2024⟩ } :=
  (marcar_perdida_spec opPerdida ⟨7, 2024⟩).2 (by decide)

/-- The `Sum` aggregate followed by the `or Decimal("0.00")` fallback is the
plain sum of the column (the empty queryset and a zero sum both land on the
same value `0`). -/
lemma pyOrZero_aggregateSum (l : List ℚ) : pyOrZero (aggregateSum l) = l.sum := by
  have hsome : ∀ v : ℚ, pyOrZero (some v) = v := by
    intro v
    show (if v = 0 then 0 else v) = v
    split_ifs with h
    · exact h.symm
    · rfl
  cases l with
  | nil => rfl
  | cons x xs => exact hsome (x :: xs).sum

/-- Summing a column over a filtered list is summing the guarded column over
the whole list. -/
lemma filter_map_sum (p : Oportunidade → Bool) (db : List Oportunidade) :
    ((db.filter p).map (fun o => o.valor_estimado)).sum =
      (db.map fun o => if p o then o.valor_estimado else 0).sum := by
  induction db with
  | nil => rfl
  | cons x xs ih =>
    by_cases h : p x <;> simp [List.filter_cons, h, ih]

/-- C5: `calcular_realizado` is the sum of `valor_estimado` over exactly the
seller's opportunities in stage FECHAMENTO updated in the given month/year,
`calcular_pipeline` the sum over exactly the seller's opportunities created
in the given month/year whose stage is neither FECHAMENTO nor PERDIDA, and
when no opportunity matches, each returns exactly `0` (the return type is a
plain number, never an absent value). -/
theorem calcular_somas_spec (db : List Oportunidade) (vendedor mes ano : Nat) :
    calcular_realizado db vendedor mes ano =
      (db.map fun o =>
        if o.vendedor = vendedor ∧ o.etapa = Etapa.fechamento ∧
            o.atualizado_em.month = mes ∧ o.atualizado_em.year = ano
        then o.valor_estimado else 0).sum ∧
    calcular_pipeline db vendedor mes ano =
      (db.map fun o =>
        if o.vendedor = vendedor ∧ o.criado_em.month = mes ∧
            o.criado_em.year = ano ∧ o.etapa ≠ Etapa.fechamento ∧
            o.etapa ≠ Etapa.perdida
        then o.valor_estimado else 0).sum ∧
    ((∀ o ∈ db, ¬(o.vendedor = vendedor ∧ o.etapa = Etapa.fechamento ∧
        o.atualizado_em.month = mes ∧ o.atualizado_em.year = ano)) →
      calcular_realizado db vendedor mes ano = 0) ∧
    ((∀ o ∈ db, ¬(o.vendedor = vendedor ∧ o.criado_em.month = mes ∧
        o.criado_em.year = ano ∧ o.etapa ≠ Etapa.fechamento ∧
        o.etapa ≠ Etapa.perdida)) →
      calcular_pipeline db vendedor mes ano = 0) := by
  have hreal : calcular_realizado db vendedor mes ano =
      (db.map fun o =>
        if o.vendedor = vendedor ∧ o.etapa = Etapa.fechamento ∧
            o.atualizado_em.month = mes ∧ o.atualizado_em.year = ano
        then o.valor_estimado else 0).sum := by
    unfold calcular_realizado
    rw [pyOrZero_aggregateSum, filter_map_sum]
    congr 1
    apply List.map_congr_left
    intro o _
    by_cases h1 : o.vendedor = vendedor <;>
      by_cases h2 : o.etapa = Etapa.fechamento <;>
      by_cases h3 : o.atualizado_em.month = mes <;>
      by_cases h4 : o.atualizado_em.year = ano <;>
      simp [h1, h2, h3, h4]
  have hpipe : calcular_pipeline db vendedor mes ano =
      (db.map fun o =>
        if o.vendedor = vendedor ∧ o.criado_em.month = mes ∧
            o.criado_em.year = ano ∧ o.etapa ≠ Etapa.fechamento ∧
            o.etapa ≠ Etapa.perdida
        then o.valor_estimado else 0).sum := by
    unfold calcular_pipeline
    rw [pyOrZero_aggregateSum, List.filter_filter, filter_map_sum]
    congr 1
    apply List.map_congr_left
    intro o _
    by_cases h1 : o.vendedor = vendedor <;>
      by_cases h2 : o.criado_em.month = mes <;>
      by_cases h3 : o.criado_em.year = ano <;>
      by_cases h4 : o.etapa = Etapa.fechamento <;>
      by_cases h5 : o.etapa = Etapa.perdida <;>
      simp [h1, h2, h3, h4, h5]
  refine ⟨hreal, hpipe, ?_, ?_⟩
  · intro hnone
    rw [hreal]
    apply List.sum_eq_zero
    intro x hx
    obtain ⟨o, ho, rfl⟩ := List.mem_map.mp hx
    exact if_neg (hnone o ho)
  · intro hnone
    rw [hpipe]
    apply List.sum_eq_zero
    intro x hx
    obtain ⟨o, ho, rfl⟩ := List.mem_map.mp hx
    exact if_neg (hnone o ho)

/-- Witness for C5: with a single opportunity belonging to seller 7, the
aggregates for seller 2 have no matching rows and are exactly `0`. -/
theorem calcular_somas_spec_witness :
    calcular_realizado [opExemplo] 2 6 2024 = 0 ∧
      calcular_pipeline [opExemplo] 2 6 2024 = 0 :=
  ⟨(calcular_somas_spec [opExemplo] 2 6 2024).2.2.1 (by decide),
   (calcular_somas_spec [opExemplo] 2 6 2024).2.2.2 (by decide)⟩

/-- C6: in every `obter_meta_vendedor` result, if the resolved target value
is positive the returned percentage is `realizado / valor_meta * 100`
rounded (half-even) to one decimal place, computed on the returned fields
themselves; otherwise the returned percentage is exactly `0`. -/
theorem obter_meta_percentual_spec (db : List Oportunidade)
    (metas : List MetaComercial) (hoje : Data) (vendedor : Nat)
    (mes ano : Option Nat) :
    (0 < (obter_meta_vendedor db metas hoje vendedor mes ano).valor_meta →
      (obter_meta_vendedor db metas hoje vendedor mes ano).percentual =
        round1 ((obter_meta_vendedor db metas hoje vendedor mes ano).realizado /
          (obter_meta_vendedor db metas hoje vendedor mes ano).valor_meta * 100)) ∧
    ((obter_meta_vendedor db metas hoje vendedor mes ano).valor_meta ≤ 0 →
      (obter_meta_vendedor db metas hoje vendedor mes ano).percentual = 0) := by
  unfold obter_meta_vendedor
  constructor <;> intro h
  · exact if_pos h
  · exact if_neg (not_lt.mpr h)

/-- Witness for C6: seller 1 with target 1000 and one closed-won opportunity
of value 600 updated in June 2024 gets percentage 60.0. -/
theorem obter_meta_percentual_spec_witness :
    (obter_meta_vendedor [opFechada] [metaExemplo] ⟨6, 2024⟩ 1
      (some 6) (some 2024)).percentual = 60 := by
  have hvm : (obter_meta_vendedor [opFechada] [metaExemplo] ⟨6, 2024⟩ 1
      (some 6) (some 2024)).valor_meta = 1000 := rfl
  have hr : (obter_meta_vendedor [opFechada] [metaExemplo] ⟨6, 2024⟩ 1
      (some 6) (some 2024)).realizado = 600 := by
    show calcular_realizado [opFechada] 1 6 2024 = 600
    simp [calcular_realizado, opFechada, aggregateSum, pyOrZero]
  have h := (obter_meta_percentual_spec [opFechada] [metaExemplo] ⟨6, 2024⟩ 1
    (some 6) (some 2024)).1 (by rw [hvm]; norm_num)
  rw [h, hvm, hr]
  norm_num [round1, roundHalfEven]

/-- C7: when the seller has no target row for the requested (month, year),
`obter_meta_vendedor` does not fail: it returns no target record, target
value `0`, percentage `0`, and status OK, whatever the opportunity table
(hence whatever realized and pipeline) contains. -/
theorem obter_meta_sem_meta (db : List Oportunidade)
    (metas : List MetaComercial) (hoje : Data) (vendedor mes ano : Nat)
    (h : ∀ t ∈ metas, ¬(t.vendedor = vendedor ∧ t.mes = mes ∧ t.ano = ano)) :
    (obter_meta_vendedor db metas hoje vendedor (some mes) (some ano)).meta =
        none ∧
    (obter_meta_vendedor db metas hoje vendedor (some mes) (some ano)).valor_meta
        = 0 ∧
    (obter_meta_vendedor db metas hoje vendedor (some mes) (some ano)).percentual
        = 0 ∧
    (obter_meta_vendedor db metas hoje vendedor (some mes) (some ano)).status =
        StatusMeta.OK := by
  have hget : metaGet metas vendedor mes ano = none := by
    unfold metaGet
    rw [List.find?_eq_none]
    intro t ht
    simpa using h t ht
  refine ⟨?_, ?_, ?_, ?_⟩ <;>
    simp [obter_meta_vendedor, resolveMesAno, hget, calcular_status_meta]

/-- Witness for C7: seller 2 has no target row in a table holding only a
row for seller 1, and the July 2024 result defaults to target 0 / status
OK. -/
theorem obter_meta_sem_meta_witness :
    (obter_meta_vendedor [opFechada] [metaExemplo] ⟨7, 2024⟩ 2 (some 7)
        (some 2024)).meta = none ∧
    (obter_meta_vendedor [opFechada] [metaExemplo] ⟨7, 2024⟩ 2 (some 7)
        (some 2024)).valor_meta = 0 ∧
    (obter_meta_vendedor [opFechada] [metaExemplo] ⟨7, 2024⟩ 2 (some 7)
        (some 2024)).percentual = 0 ∧
    (obter_meta_vendedor [opFechada] [metaExemplo] ⟨7, 2024⟩ 2 (some 7)
        (some 2024)).status = StatusMeta.OK :=
  obter_meta_sem_meta [opFechada] [metaExemplo] ⟨7, 2024⟩ 2 7 2024 (by decide)

/-- C8 counterexample: the claim says a supplied month is kept when only the
year is omitted, but with month 0 supplied and year omitted the code's
`mes or hoje.month` discards the falsy 0 and substitutes the current month
(5 here), so the returned month is not the supplied 0. -/
theorem obter_meta_mes_counterexample :
    (obter_meta_vendedor [] [] ⟨5, 2024⟩ 7 (some 0) none).mes ≠ 0 := by
  decide

/-- C8 (amended): when both month and year are supplied they are used as
given; when either is omitted, each component is resolved independently —
an omitted component is filled from the current date, and a supplied
component is kept only when nonzero, a supplied 0 being replaced by the
current date's component as well (Python falsiness). This holds for both
`obter_meta_vendedor` and `listar_metas_vendedores`. -/
theorem obter_meta_mes_ano_amended (db : List Oportunidade)
    (metas : List MetaComercial) (hoje : Data) (vendedor : Nat)
    (mes ano : Option Nat) :
    ((obter_meta_vendedor db metas hoje vendedor mes ano).mes =
      match mes, ano with
      | some m, some _ => m
      | some m, none => if m = 0 then hoje.month else m
      | none, _ => hoje.month) ∧
    ((obter_meta_vendedor db metas hoje vendedor mes ano).ano =
      match mes, ano with
      | some _, some a => a
      | none, some a => if a = 0 then hoje.year else a
      | _, none => hoje.year) ∧
    ((listar_metas_vendedores db metas hoje mes ano).2.1 =
      match mes, ano with
      | some m, some _ => m
      | some m, none => if m = 0 then hoje.month else m
      | none, _ => hoje.month) ∧
    ((listar_metas_vendedores db metas hoje mes ano).2.2 =
      match mes, ano with
      | some _, some a => a
      | none, some a => if a = 0 then hoje.year else a
      | _, none => hoje.year) := by
  rcases mes with _ | m <;> rcases ano with _ | a <;>
    refine ⟨?_, ?_, ?_, ?_⟩ <;>
    simp [obter_meta_vendedor, listar_metas_vendedores, resolveMesAno, pyOrNat]

/-- C9: `listar_metas_vendedores` returns the resolved month/year, one
entry per target row of the resolved period, and its `i`-th entry is the
result of an independent `obter_meta_vendedor` call for the `i`-th such
row's seller and the resolved period — independent in that any clock value
`hoje2` gives the same result, both period components being supplied. -/
theorem listar_metas_por_entrada (db : List Oportunidade)
    (metas : List MetaComercial) (hoje : Data) (mes ano : Option Nat) :
    ((listar_metas_vendedores db metas hoje mes ano).2 =
      resolveMesAno mes ano hoje) ∧
    ((listar_metas_vendedores db metas hoje mes ano).1.length =
      (metas.filter fun t =>
        decide (t.mes = (resolveMesAno mes ano hoje).1 ∧
          t.ano = (resolveMesAno mes ano hoje).2)).length) ∧
    ∀ (i : Nat) (t : MetaComercial) (hoje2 : Data),
      (metas.filter fun t2 =>
        decide (t2.mes = (resolveMesAno mes ano hoje).1 ∧
          t2.ano = (resolveMesAno mes ano hoje).2)).get? i = some t →
      (listar_metas_vendedores db metas hoje mes ano).1.get? i =
        some (obter_meta_vendedor db metas hoje2 t.vendedor
          (some (resolveMesAno mes ano hoje).1)
          (some (resolveMesAno mes ano hoje).2)) := by
  have hfun : (fun t : MetaComercial =>
      t.mes == (resolveMesAno mes ano hoje).1 &&
        t.ano == (resolveMesAno mes ano hoje).2) =
      fun t2 => decide (t2.mes = (resolveMesAno mes ano hoje).1 ∧
        t2.ano = (resolveMesAno mes ano hoje).2) := by
    funext t
    by_cases h1 : t.mes = (resolveMesAno mes ano hoje).1 <;>
      by_cases h2 : t.ano = (resolveMesAno mes ano hoje).2 <;>
      simp [h1, h2]
  have hirrel : ∀ (h1 h2 : Data) (v m a : Nat),
      obter_meta_vendedor db metas h1 v (some m) (some a) =
        obter_meta_vendedor db metas h2 v (some m) (some a) :=
    fun _ _ _ _ _ => rfl
  unfold listar_metas_vendedores
  refine ⟨rfl, ?_, ?_⟩
  · rw [List.length_map, hfun]
  · intro i t hoje2 hget
    rw [List.get?_map, hfun, hget]
    exact congrArg some (hirrel hoje hoje2 t.vendedor _ _)

/-- Witness for C9: with a single target row (seller 1, June 2024), entry 0
of the manager listing equals the independent per-seller call, even under a
different clock. -/
theorem listar_metas_por_entrada_witness :
    (listar_metas_vendedores [opFechada] [metaExemplo] ⟨6, 2024⟩ (some 6)
        (some 2024)).1.get? 0 =
      some (obter_meta_vendedor [opFechada] [metaExemplo] ⟨1, 2000⟩
        metaExemplo.vendedor
        (some (resolveMesAno (some 6) (some 2024) ⟨6, 2024⟩).1)
        (some (resolveMesAno (some 6) (some 2024) ⟨6, 2024⟩).2)) :=
  (listar_metas_por_entrada [opFechada] [metaExemplo] ⟨6, 2024⟩ (some 6)
    (some 2024)).2.2 0 metaExemplo ⟨1, 2000⟩ (by decide)

/-- C10: every successful `avancar_etapa` or `marcar_perdida` persists a
record that differs from the input only in the stage and the refreshed
update timestamp: title, client, seller, estimated value, description and
creation timestamp are unchanged. -/
theorem transicoes_frame (o o2 : Oportunidade) (agora : Data)
    (h : avancar_etapa o agora = Except.ok o2 ∨
      marcar_perdida o agora = Except.ok o2) :
    o2.titulo = o.titulo ∧ o2.cliente = o.cliente ∧ o2.vendedor = o.vendedor ∧
    o2.valor_estimado = o.valor_estimado ∧ o2.descricao = o.descricao ∧
    o2.criado_em = o.criado_em ∧ o2.atualizado_em = agora := by
  obtain ⟨t, c, v, val, d, et, cr, atu⟩ := o
  rcases h with h | h
  · cases et <;>
      simp [avancar_etapa, listIndex, ORDEM_ETAPAS] at h <;>
      (rw [← h]; exact ⟨rfl, rfl, rfl, rfl, rfl, rfl, rfl⟩)
  · cases et <;>
      simp [marcar_perdida] at h <;>
      (rw [← h]; exact ⟨rfl, rfl, rfl, rfl, rfl, rfl, rfl⟩)

/-- The saved record of the C10 witness: `opExemplo` marked lost in July
2024. -/
def opExemploPerdida : Oportunidade :=
  { opExemplo with etapa := Etapa.perdida, atualizado_em := ⟨7, 2024⟩ }

/-- Witness for C10: marking the sample opportunity lost keeps every field
but the stage and the update timestamp. -/
theorem transicoes_frame_witness :
    opExemploPerdida.titulo = opExemplo.titulo ∧
    opExemploPerdida.cliente = opExemplo.cliente ∧
    opExemploPerdida.vendedor = opExemplo.vendedor ∧
    opExemploPerdida.valor_estimado = opExemplo.valor_estimado ∧
    opExemploPerdida.descricao = opExemplo.descricao ∧
    opExemploPerdida.criado_em = opExemplo.criado_em ∧
    opExemploPerdida.atualizado_em = ⟨7, 2024⟩ :=
  transicoes_frame opExemplo opExemploPerdida ⟨7, 2024⟩ (Or.inr rfl)

end Praxis
